import Mathlib

/-!
Verification development for the zmk-module-settings-rpc repository.

The repository implements a settings reconciliation protocol for split
keyboards: a central node and follower (peripheral) nodes agree on two
timeout values (idle_ms, sleep_ms). The C sources are shallowly embedded
below: pure request handlers become Lean functions, the mutable activity
store and the report-collection state become explicit state values that
are threaded through, and side effects (raised events, outward
notifications, the bounded sleep) become an explicit list of actions.
Machine integers carry no arithmetic here except the uint8_t request_id
increment, which is modelled with an explicit % 256.

Two variants of the RPC handler exist side by side in the repository:
a notification-streamed (asynchronous) variant in
src/src/studio/settings_rpc_handler.c and a bounded-synchronous variant
bundled in src/include/zmk/events/activity_settings_changed.h. Both are
embedded.
-/

/-- Self-origin sentinel: the header comment on zmk_activity_settings_changed
documents source as 0xFF for self, 0 for central, 1+ for peripherals. -/
def ZMK_RELAY_EVENT_SOURCE_SELF : Nat := 255

/-- The node-local activity store state: the two timeout values owned by the
external zmk activity subsystem (idle_ms, sleep_ms are uint32_t). -/
structure ActivityState where
  idle_ms : Nat
  sleep_ms : Nat
deriving DecidableEq

/-- Modelled from the spec: the SettingsStore collaborator (zmk_activity_set_idle_ms
and zmk_activity_set_sleep_ms are external to this repository). Per the spec,
set fails only if a bound (value out of accepted range) is violated; success is
otherwise unconditional and immediately visible to subsequent get. The unknown
bound checks are abstracted as two acceptance predicates. -/
structure StoreBounds where
  acceptIdle : Nat → Bool
  acceptSleep : Nat → Bool

/-- Modelled from the spec: zmk_activity_set_idle_ms (external store primitive).
Returns whether the write was accepted together with the updated store state. -/
def zmk_activity_set_idle_ms (B : StoreBounds) (v : Nat) (s : ActivityState) :
    Bool × ActivityState :=
  if B.acceptIdle v then (true, { s with idle_ms := v }) else (false, s)

/-- Modelled from the spec: zmk_activity_set_sleep_ms (external store primitive). -/
def zmk_activity_set_sleep_ms (B : StoreBounds) (v : Nat) (s : ActivityState) :
    Bool × ActivityState :=
  if B.acceptSleep v then (true, { s with sleep_ms := v }) else (false, s)

/-- Modelled from the spec: zmk_activity_get_idle_ms (external store primitive). -/
def zmk_activity_get_idle_ms (s : ActivityState) : Nat := s.idle_ms

/-- Modelled from the spec: zmk_activity_get_sleep_ms (external store primitive). -/
def zmk_activity_get_sleep_ms (s : ActivityState) : Nat := s.sleep_ms

/-- Event struct from include/zmk/events/activity_settings_changed.h. -/
structure zmk_activity_settings_changed where
  idle_ms : Nat
  sleep_ms : Nat
  source : Nat
deriving DecidableEq

/-- Event struct from include/zmk/events/activity_settings_report.h:
raised by the central to request settings from peripherals. -/
structure zmk_activity_settings_request where
  request_id : Nat
deriving DecidableEq

/-- Event struct from include/zmk/events/activity_settings_report.h:
raised by a peripheral to report its settings back to the central. -/
structure zmk_activity_settings_report where
  idle_ms : Nat
  sleep_ms : Nat
  source : Nat
  request_id : Nat
deriving DecidableEq

/-- Observable side effects of the handlers: raised relay events, outward
studio notifications (send_activity_settings_notification), and the bounded
k_sleep wait of the synchronous collection. -/
inductive RelayAction where
  | raiseChanged : zmk_activity_settings_changed → RelayAction
  | raiseRequest : zmk_activity_settings_request → RelayAction
  | raiseReport : zmk_activity_settings_report → RelayAction
  | notify : Nat → Nat → Nat → RelayAction
  | sleepMs : Nat → RelayAction
deriving DecidableEq

/-- Calls made into the external activity store, recorded so that listener
behaviour (which store primitives are invoked, under which condition) is
observable in the embedding. -/
inductive StoreCall where
  | setIdle : Nat → StoreCall
  | setSleep : Nat → StoreCall
deriving DecidableEq

/-- Protobuf message zmk_settings_ActivitySettings (idle_ms, sleep_ms, source). -/
structure zmk_settings_ActivitySettings where
  idle_ms : Nat
  sleep_ms : Nat
  source : Nat
deriving DecidableEq

/-- Protobuf message zmk_settings_SetActivitySettingsRequest (its settings field). -/
structure zmk_settings_SetActivitySettingsRequest where
  idle_ms : Nat
  sleep_ms : Nat
deriving DecidableEq

/-- Protobuf message zmk_settings_SetActivitySettingsResponse. -/
structure zmk_settings_SetActivitySettingsResponse where
  success : Bool
deriving DecidableEq

/-- Protobuf message zmk_settings_GetActivitySettingsResponse (its settings field). -/
structure zmk_settings_GetActivitySettingsResponse where
  idle_ms : Nat
  sleep_ms : Nat
deriving DecidableEq

/-- Protobuf message zmk_settings_GetAllActivitySettingsResponse in the
bounded-synchronous variant: collected settings array plus in_sync verdict.
The fixed-size array together with its count is modelled as a Lean list in
arrival order. -/
structure zmk_settings_GetAllActivitySettingsResponse where
  all_settings : List zmk_settings_ActivitySettings
  in_sync : Bool
deriving DecidableEq

/-- Protobuf message zmk_settings_GetAllActivitySettingsResponse in the
asynchronous variant: a bare acknowledgement that the request was sent. -/
structure zmk_settings_GetAllActivitySettingsResponseAsync where
  request_sent : Bool
deriving DecidableEq

/-- Decoded zmk_settings_Request oneof. The unsupported constructor stands for
any tag outside the three handled cases (the default branch of the switch). -/
inductive zmk_settings_Request where
  | get_activity_settings : zmk_settings_Request
  | set_activity_settings : zmk_settings_SetActivitySettingsRequest → zmk_settings_Request
  | get_all_activity_settings : zmk_settings_Request
  | unsupported : Nat → zmk_settings_Request
deriving DecidableEq

/-- zmk_settings_Response oneof, including the error response branch. -/
inductive zmk_settings_Response where
  | get_activity_settings : zmk_settings_GetActivitySettingsResponse → zmk_settings_Response
  | set_activity_settings : zmk_settings_SetActivitySettingsResponse → zmk_settings_Response
  | get_all_activity_settings : zmk_settings_GetAllActivitySettingsResponseAsync → zmk_settings_Response
  | error : String → zmk_settings_Response
deriving DecidableEq

/-- Whether a response is the error branch (which_response_type == error_tag). -/
def zmk_settings_Response.isError : zmk_settings_Response → Bool
  | .error _ => true
  | _ => false

/-- handle_get_activity_settings from settings_rpc_handler.c: reads the two
current values from the activity store into the response. -/
def handle_get_activity_settings (s : ActivityState) :
    zmk_settings_GetActivitySettingsResponse :=
  { idle_ms := zmk_activity_get_idle_ms s, sleep_ms := zmk_activity_get_sleep_ms s }

/-- handle_set_activity_settings from settings_rpc_handler.c: calls
zmk_activity_set_idle_ms then zmk_activity_set_sleep_ms (both attempted even if
the first fails), and if both succeeded raises zmk_activity_settings_changed
with source = ZMK_RELAY_EVENT_SOURCE_SELF (relay-enabled build). Returns the
response, the new store state, the raised events and the C return code. -/
def handle_set_activity_settings (B : StoreBounds)
    (req : zmk_settings_SetActivitySettingsRequest) (s : ActivityState) :
    zmk_settings_SetActivitySettingsResponse × ActivityState × List RelayAction × Int :=
  let r1 := zmk_activity_set_idle_ms B req.idle_ms s
  let r2 := zmk_activity_set_sleep_ms B req.sleep_ms r1.2
  let success := r1.1 && r2.1
  let acts : List RelayAction :=
    if success then
      [RelayAction.raiseChanged
        { idle_ms := req.idle_ms, sleep_ms := req.sleep_ms,
          source := ZMK_RELAY_EVENT_SOURCE_SELF }]
    else []
  ({ success := success }, r2.2, acts, if success then 0 else -1)

/-- activity_settings_changed_listener from settings_rpc_handler.c (the same
function also appears in src/events/activity_settings_changed.c): if the event
source differs from ZMK_RELAY_EVENT_SOURCE_SELF it calls the two store setters
with the event values (return values ignored); otherwise it does nothing.
The store calls made are returned alongside the resulting store state. -/
def activity_settings_changed_listener (B : StoreBounds)
    (ev : zmk_activity_settings_changed) (s : ActivityState) :
    ActivityState × List StoreCall :=
  if ev.source ≠ ZMK_RELAY_EVENT_SOURCE_SELF then
    ((zmk_activity_set_sleep_ms B ev.sleep_ms
        (zmk_activity_set_idle_ms B ev.idle_ms s).2).2,
     [StoreCall.setIdle ev.idle_ms, StoreCall.setSleep ev.sleep_ms])
  else (s, [])

/-- activity_settings_request_listener from settings_rpc_handler.c (peripheral
role): answers a settings request by raising exactly one
zmk_activity_settings_report built from the current store values, with
source = ZMK_RELAY_EVENT_SOURCE_SELF (the relay stamps the real identity) and
the request_id echoed from the received request. -/
def activity_settings_request_listener (s : ActivityState)
    (ev : zmk_activity_settings_request) : List RelayAction :=
  [RelayAction.raiseReport
    { idle_ms := zmk_activity_get_idle_ms s,
      sleep_ms := zmk_activity_get_sleep_ms s,
      source := ZMK_RELAY_EVENT_SOURCE_SELF,
      request_id := ev.request_id }]

/-- activity_settings_request_listener as it appears in the second source file
(src/unnamed/part_002, the event implementation file): textually the same
logic as the one in settings_rpc_handler.c. -/
def activity_settings_request_listener_relay (s : ActivityState)
    (ev : zmk_activity_settings_request) : List RelayAction :=
  [RelayAction.raiseReport
    { idle_ms := zmk_activity_get_idle_ms s,
      sleep_ms := zmk_activity_get_sleep_ms s,
      source := ZMK_RELAY_EVENT_SOURCE_SELF,
      request_id := ev.request_id }]

/-! ## Asynchronous (notification-streamed) collection variant
from src/src/studio/settings_rpc_handler.c -/

/-- send_activity_settings_notification from settings_rpc_handler.c: raises a
studio custom notification carrying the given settings and source. -/
def send_activity_settings_notification (idle_ms sleep_ms src : Nat) : RelayAction :=
  RelayAction.notify idle_ms sleep_ms src

/-- handle_get_all_activity_settings from settings_rpc_handler.c (asynchronous
variant, central role): sends a notification with the central settings
(source 0), raises a zmk_activity_settings_request (request_id 0, unused in
this variant), and returns immediately with request_sent = true and rc 0.
There is no wait and no session state. -/
def handle_get_all_activity_settings (s : ActivityState) :
    zmk_settings_GetAllActivitySettingsResponseAsync × List RelayAction × Int :=
  ({ request_sent := true },
   [send_activity_settings_notification (zmk_activity_get_idle_ms s)
      (zmk_activity_get_sleep_ms s) 0,
    RelayAction.raiseRequest { request_id := 0 }],
   0)

/-- activity_settings_report_listener from settings_rpc_handler.c (asynchronous
variant, central role): every received report is forwarded as an outward
notification unconditionally; there is no correlation-id check and no state. -/
def activity_settings_report_listener_notify (ev : zmk_activity_settings_report) :
    List RelayAction :=
  [send_activity_settings_notification ev.idle_ms ev.sleep_ms ev.source]

/-- settings_rpc_handle_request from settings_rpc_handler.c. The nanopb decode
of the opaque payload is external; its outcome is modelled as an Option: none
for a payload pb_decode rejects, some for a decoded request. On decode failure
or a nonzero handler return code the response is overwritten with the error
branch. The final Bool is the C return value (always true: the node answers
normally rather than faulting). -/
def settings_rpc_handle_request (B : StoreBounds)
    (decoded : Option zmk_settings_Request) (s : ActivityState) :
    zmk_settings_Response × ActivityState × List RelayAction × Bool :=
  match decoded with
  | none => (.error "Failed to decode request", s, [], true)
  | some .get_activity_settings =>
      (.get_activity_settings (handle_get_activity_settings s), s, [], true)
  | some (.set_activity_settings req) =>
      let r := handle_set_activity_settings B req s
      if r.2.2.2 ≠ 0 then (.error "Failed to process request", r.2.1, r.2.2.1, true)
      else (.set_activity_settings r.1, r.2.1, r.2.2.1, true)
  | some .get_all_activity_settings =>
      let r := handle_get_all_activity_settings s
      (.get_all_activity_settings r.1, s, r.2.1, true)
  | some (.unsupported _) => (.error "Failed to process request", s, [], true)

/-! ## Bounded-synchronous collection variant
from the handler revision bundled in src/include/zmk/events/activity_settings_changed.h -/

/-- MAX_PERIPHERALS from the bounded-synchronous handler revision. -/
def MAX_PERIPHERALS : Nat := 8

/-- The static settings_collection struct of the bounded-synchronous revision:
the fixed array of collected peripheral settings together with its count is
modelled as a list in arrival order (the code only writes settings[count] and
increments count together), plus the current session request_id (uint8_t). -/
structure settings_collection where
  settings : List zmk_settings_ActivitySettings
  request_id : Nat
deriving DecidableEq

/-- activity_settings_report_listener of the bounded-synchronous revision
(central role): a report whose request_id differs from the current session id
is ignored; otherwise, if fewer than MAX_PERIPHERALS entries are stored, the
report settings are appended and the count incremented; a report arriving when
the array is full is dropped. -/
def activity_settings_report_listener (col : settings_collection)
    (ev : zmk_activity_settings_report) : settings_collection :=
  if ev.request_id ≠ col.request_id then col
  else if col.settings.length < MAX_PERIPHERALS then
    { col with settings := col.settings ++
        [{ idle_ms := ev.idle_ms, sleep_ms := ev.sleep_ms, source := ev.source }] }
  else col

/-- Whether one collected entry diverges field-wise from the reference entry:
the loop condition of the in_sync check. -/
def settings_mismatch (ref e : zmk_settings_ActivitySettings) : Bool :=
  decide (e.idle_ms ≠ ref.idle_ms) || decide (e.sleep_ms ≠ ref.sleep_ms)

/-- The in_sync computation of handle_get_all_activity_settings (synchronous
revision): in_sync starts true; scanning from index 1, the first entry whose
idle_ms or sleep_ms differs from entry 0 sets in_sync to false, is logged as a
warning, and stops the scan. Returns the verdict and the warned entry. -/
def compute_in_sync (all : List zmk_settings_ActivitySettings) :
    Bool × Option zmk_settings_ActivitySettings :=
  match all with
  | [] => (true, none)
  | ref :: rest =>
    match rest.find? (fun e => settings_mismatch ref e) with
    | some e => (false, some e)
    | none => (true, none)

/-- First phase of handle_get_all_activity_settings (synchronous revision),
up to raising the request: reset the collection count to 0, increment the
session request_id (uint8_t, wraps mod 256), and fill slot 0 of the response
with the central store values (source 0). Returns the new collection state,
the slot-0 entry, and the raised request event. -/
def handle_get_all_activity_settings_sync_begin (col : settings_collection)
    (s : ActivityState) :
    settings_collection × zmk_settings_ActivitySettings × zmk_activity_settings_request :=
  let col1 : settings_collection :=
    { settings := [], request_id := (col.request_id + 1) % 256 }
  (col1,
   { idle_ms := zmk_activity_get_idle_ms s, sleep_ms := zmk_activity_get_sleep_ms s,
     source := 0 },
   { request_id := col1.request_id })

/-- Second phase of handle_get_all_activity_settings (synchronous revision),
after the 100 ms wait: copy at most MAX_PERIPHERALS collected entries after the
slot-0 entry, then compute in_sync. Returns the response and the entry logged
as the first divergence warning, if any. -/
def handle_get_all_activity_settings_sync_finish (col : settings_collection)
    (own : zmk_settings_ActivitySettings) :
    zmk_settings_GetAllActivitySettingsResponse × Option zmk_settings_ActivitySettings :=
  let all := own :: col.settings.take MAX_PERIPHERALS
  let v := compute_in_sync all
  ({ all_settings := all, in_sync := v.1 }, v.2)

/-- The whole synchronous handle_get_all_activity_settings: begin, raise the
request, block for the 100 ms window during which the report listener consumes
the delivered reports in arrival order, then finish. The reports argument is
the sequence of zmk_activity_settings_report events delivered while waiting. -/
def handle_get_all_activity_settings_sync (col : settings_collection)
    (s : ActivityState) (reports : List zmk_activity_settings_report) :
    zmk_settings_GetAllActivitySettingsResponse × Option zmk_settings_ActivitySettings
      × settings_collection × List RelayAction :=
  let b := handle_get_all_activity_settings_sync_begin col s
  let col2 := reports.foldl activity_settings_report_listener b.1
  let f := handle_get_all_activity_settings_sync_finish col2 b.2.1
  (f.1, f.2, col2, [RelayAction.raiseRequest b.2.2, RelayAction.sleepMs 100])

/-! ## Shared helper definitions and lemmas -/

/-- A concrete store instance whose bounds accept every value; used to evaluate
the handlers at concrete inputs. -/
def allAccept : StoreBounds :=
  { acceptIdle := fun _ => true, acceptSleep := fun _ => true }

/-- A concrete store instance that rejects idle writes above 4000 ms while
accepting every sleep write; used to evaluate the partial-rejection path. -/
def idle_cap_4000 : StoreBounds :=
  { acceptIdle := fun v => decide (v ≤ 4000), acceptSleep := fun _ => true }

/-- An entry does not mismatch the reference exactly when both fields agree. -/
theorem settings_mismatch_false_iff (ref e : zmk_settings_ActivitySettings) :
    settings_mismatch ref e = false ↔
      (e.idle_ms = ref.idle_ms ∧ e.sleep_ms = ref.sleep_ms) := by
  unfold settings_mismatch
  simp

/-- If find? returns a hit, the list splits at the first hit: everything before
it fails the predicate. -/
theorem list_find_first_split {α : Type} (p : α → Bool) (l : List α) (e : α)
    (h : l.find? p = some e) :
    ∃ l1 l2, l = l1 ++ e :: l2 ∧ p e = true ∧ ∀ x ∈ l1, p x = false := by
  induction l with
  | nil => simp at h
  | cons a t ih =>
    by_cases hp : p a = true
    · rw [List.find?_cons_of_pos _ hp] at h
      cases h
      exact ⟨[], t, rfl, hp, by simp⟩
    · rw [List.find?_cons_of_neg _ (by simpa using hp)] at h
      obtain ⟨l1, l2, rfl, hpe, hall⟩ := ih h
      refine ⟨a :: l1, l2, rfl, hpe, ?_⟩
      intro x hx
      rcases List.mem_cons.mp hx with rfl | hx
      · simpa using hp
      · exact hall x hx

/-- The in_sync scan returns true exactly when every entry agrees field-wise
with the head entry. -/
theorem compute_in_sync_true_iff (ref : zmk_settings_ActivitySettings)
    (rest : List zmk_settings_ActivitySettings) :
    (compute_in_sync (ref :: rest)).1 = true ↔
      ∀ e ∈ ref :: rest, e.idle_ms = ref.idle_ms ∧ e.sleep_ms = ref.sleep_ms := by
  unfold compute_in_sync
  cases hf : rest.find? (fun e => settings_mismatch ref e) with
  | none =>
    simp only [hf]
    constructor
    · intro _ e he
      rcases List.mem_cons.mp he with rfl | he
      · exact ⟨rfl, rfl⟩
      · have hx := List.find?_eq_none.mp hf e he
        exact (settings_mismatch_false_iff ref e).mp (by simpa using hx)
    · intro _
      trivial
  | some e =>
    simp only [hf]
    constructor
    · intro hfalse
      cases hfalse
    · intro hall
      have hm : settings_mismatch ref e = true := by
        simpa using List.find?_some hf
      have he : e ∈ rest := List.mem_of_find?_eq_some hf
      have hz := (settings_mismatch_false_iff ref e).mpr
        (hall e (List.mem_cons_of_mem _ he))
      rw [hz] at hm
      cases hm

/-- When the in_sync scan fails, the scanned tail splits at the warned entry:
it is the first divergent one, and the scan returns exactly it. -/
theorem compute_in_sync_false_split (ref : zmk_settings_ActivitySettings)
    (rest : List zmk_settings_ActivitySettings)
    (h : (compute_in_sync (ref :: rest)).1 = false) :
    ∃ l1 e l2, rest = l1 ++ e :: l2 ∧
      (compute_in_sync (ref :: rest)).2 = some e ∧
      settings_mismatch ref e = true ∧
      ∀ x ∈ l1, settings_mismatch ref x = false := by
  have hred : compute_in_sync (ref :: rest) =
      (match rest.find? (fun e => settings_mismatch ref e) with
       | some e => (false, some e)
       | none => (true, none)) := rfl
  cases hf : rest.find? (fun e => settings_mismatch ref e) with
  | none =>
    rw [hred, hf] at h
    simp at h
  | some e =>
    obtain ⟨l1, l2, hsplit, hpe, hall⟩ :=
      list_find_first_split (fun e => settings_mismatch ref e) rest e hf
    refine ⟨l1, e, l2, hsplit, ?_, by simpa using hpe, ?_⟩
    · rw [hred, hf]
    · intro x hx
      simpa using hall x hx

/-- A single report preserves the collection capacity bound. -/
theorem report_listener_length_le (col : settings_collection)
    (ev : zmk_activity_settings_report)
    (h : col.settings.length ≤ MAX_PERIPHERALS) :
    (activity_settings_report_listener col ev).settings.length ≤ MAX_PERIPHERALS := by
  unfold activity_settings_report_listener
  by_cases h1 : ev.request_id ≠ col.request_id
  · simpa [h1] using h
  · by_cases h2 : col.settings.length < MAX_PERIPHERALS
    · simp only [h1, if_false, h2, if_true, List.length_append, List.length_cons,
        List.length_nil]
      omega
    · simpa [h1, h2] using h

/-- Any sequence of delivered reports preserves the collection capacity bound. -/
theorem foldl_report_listener_length_le (reports : List zmk_activity_settings_report)
    (col : settings_collection)
    (h : col.settings.length ≤ MAX_PERIPHERALS) :
    (reports.foldl activity_settings_report_listener col).settings.length
      ≤ MAX_PERIPHERALS := by
  induction reports generalizing col with
  | nil => simpa using h
  | cons r rs ih => exact ih _ (report_listener_length_le col r h)

/-! ## Claim theorems -/

/-- C1 (amended): for every ChangeEvent delivered to the apply listener, if the
event source equals the self-origin marker the listener makes no store call and
the stored values are unchanged; for every other source value — including one
equal to the receiving node own identity — it unconditionally calls the two
store setters with the event values, and whenever the store accepts them the
stored idle_ms and sleep_ms become the event values (last-writer-wins). -/
theorem C1_apply_relayed (B : StoreBounds) (ev : zmk_activity_settings_changed)
    (s : ActivityState) :
    (activity_settings_changed_listener B ev s).2 =
      (if ev.source = ZMK_RELAY_EVENT_SOURCE_SELF then []
       else [StoreCall.setIdle ev.idle_ms, StoreCall.setSleep ev.sleep_ms]) ∧
    (ev.source = ZMK_RELAY_EVENT_SOURCE_SELF →
      (activity_settings_changed_listener B ev s).1 = s) ∧
    (ev.source ≠ ZMK_RELAY_EVENT_SOURCE_SELF →
      B.acceptIdle ev.idle_ms = true → B.acceptSleep ev.sleep_ms = true →
      (activity_settings_changed_listener B ev s).1 =
        { idle_ms := ev.idle_ms, sleep_ms := ev.sleep_ms }) := by
  unfold activity_settings_changed_listener zmk_activity_set_idle_ms
    zmk_activity_set_sleep_ms
  by_cases h : ev.source = ZMK_RELAY_EVENT_SOURCE_SELF
  · simp [h]
  · refine ⟨by simp [h], by simp [h], ?_⟩
    intro _ hI hS
    simp [h, hI, hS]

/-- C1 witness: a concrete relayed event (source 2) is applied to the store. -/
theorem C1_witness :
    (activity_settings_changed_listener allAccept
        { idle_ms := 5000, sleep_ms := 6000, source := 2 }
        { idle_ms := 1000, sleep_ms := 2000 }).1 =
      { idle_ms := 5000, sleep_ms := 6000 } :=
  (C1_apply_relayed allAccept
      { idle_ms := 5000, sleep_ms := 6000, source := 2 }
      { idle_ms := 1000, sleep_ms := 2000 }).2.2
    (by decide) (by decide) (by decide)

/-- C1 counterexample: the claim says an event whose origin equals the node own
identity leaves the store untouched. At the central (own identity 0), a
delivered event with source 0 (not the self marker 255) still calls both store
setters and overwrites the stored values, so the claim as stated is false. -/
theorem C1_counterexample :
    (activity_settings_changed_listener allAccept
        { idle_ms := 5000, sleep_ms := 6000, source := 0 }
        { idle_ms := 1000, sleep_ms := 2000 }).1 =
      { idle_ms := 5000, sleep_ms := 6000 } ∧
    (activity_settings_changed_listener allAccept
        { idle_ms := 5000, sleep_ms := 6000, source := 0 }
        { idle_ms := 1000, sleep_ms := 2000 }).2 ≠ [] := by
  constructor <;> decide

/-- C2: SetAndPropagate publishes the ChangeEvent carrying the requested value
with source = self marker exactly when the store accepted both field writes;
the response success mirrors store acceptance; and on acceptance the stored
value is the requested value immediately (the raised event list carries the
propagation, which does not feed back into the returned store state). -/
theorem C2_set_and_propagate (B : StoreBounds)
    (req : zmk_settings_SetActivitySettingsRequest) (s : ActivityState) :
    ((handle_set_activity_settings B req s).2.2.1 =
        [RelayAction.raiseChanged
          { idle_ms := req.idle_ms, sleep_ms := req.sleep_ms,
            source := ZMK_RELAY_EVENT_SOURCE_SELF }]
      ↔ (B.acceptIdle req.idle_ms && B.acceptSleep req.sleep_ms) = true) ∧
    (handle_set_activity_settings B req s).1.success =
      (B.acceptIdle req.idle_ms && B.acceptSleep req.sleep_ms) ∧
    ((B.acceptIdle req.idle_ms && B.acceptSleep req.sleep_ms) = true →
      (handle_set_activity_settings B req s).2.1 =
        { idle_ms := req.idle_ms, sleep_ms := req.sleep_ms }) := by
  unfold handle_set_activity_settings zmk_activity_set_idle_ms
    zmk_activity_set_sleep_ms
  cases hI : B.acceptIdle req.idle_ms <;> cases hS : B.acceptSleep req.sleep_ms <;>
    simp [hI, hS]

/-- C2 witness: an accepted write stores the requested value. -/
theorem C2_witness :
    (handle_set_activity_settings allAccept
        { idle_ms := 5000, sleep_ms := 60000 }
        { idle_ms := 1000, sleep_ms := 2000 }).2.1 =
      { idle_ms := 5000, sleep_ms := 60000 } :=
  (C2_set_and_propagate allAccept
      { idle_ms := 5000, sleep_ms := 60000 }
      { idle_ms := 1000, sleep_ms := 2000 }).2.2 (by decide)

/-- C3: in the bounded-synchronous collection, a report whose request_id
differs from the current session id leaves the collection state unchanged, and
starting a new GetAll increments the session id (uint8_t, wrapping) and resets
the collection so that the response computed before any report arrives holds
exactly one entry: the calling node own current value at index 0 (source 0). -/
theorem C3_session_invariants (col : settings_collection) (s : ActivityState)
    (ev : zmk_activity_settings_report) (h : ev.request_id ≠ col.request_id) :
    activity_settings_report_listener col ev = col ∧
    (handle_get_all_activity_settings_sync_begin col s).1.request_id =
      (col.request_id + 1) % 256 ∧
    (handle_get_all_activity_settings_sync_begin col s).1.settings = [] ∧
    (handle_get_all_activity_settings_sync_finish
        (handle_get_all_activity_settings_sync_begin col s).1
        (handle_get_all_activity_settings_sync_begin col s).2.1).1.all_settings =
      [{ idle_ms := s.idle_ms, sleep_ms := s.sleep_ms, source := 0 }] := by
  refine ⟨?_, rfl, rfl, rfl⟩
  unfold activity_settings_report_listener
  simp [h]

/-- C3 witness: a stale report (id 3 against session 5) is dropped. -/
theorem C3_witness :
    activity_settings_report_listener { settings := [], request_id := 5 }
        { idle_ms := 3, sleep_ms := 4, source := 1, request_id := 3 } =
      { settings := [], request_id := 5 } :=
  (C3_session_invariants { settings := [], request_id := 5 }
      { idle_ms := 1, sleep_ms := 2 }
      { idle_ms := 3, sleep_ms := 4, source := 1, request_id := 3 }
      (by decide)).1

/-- C4: the in_sync verdict of the bounded-synchronous GetAll is true exactly
when every entry of the returned sequence agrees field-wise (idle_ms and
sleep_ms) with the first entry; it is true whenever no peripheral entry was
collected; and when it is false the warned entry is the first divergent one:
the sequence splits as head, a prefix of agreeing entries, the warned divergent
entry, and a tail. -/
theorem C4_in_sync_verdict (col : settings_collection)
    (own : zmk_settings_ActivitySettings) :
    ((handle_get_all_activity_settings_sync_finish col own).1.in_sync = true ↔
      ∀ e ∈ (handle_get_all_activity_settings_sync_finish col own).1.all_settings,
        e.idle_ms = own.idle_ms ∧ e.sleep_ms = own.sleep_ms) ∧
    (col.settings = [] →
      (handle_get_all_activity_settings_sync_finish col own).1.in_sync = true) ∧
    ((handle_get_all_activity_settings_sync_finish col own).1.in_sync = false →
      ∃ l1 e l2,
        (handle_get_all_activity_settings_sync_finish col own).1.all_settings =
          own :: l1 ++ e :: l2 ∧
        (handle_get_all_activity_settings_sync_finish col own).2 = some e ∧
        settings_mismatch own e = true ∧
        ∀ x ∈ l1, settings_mismatch own x = false) := by
  refine ⟨?_, ?_, ?_⟩
  · exact compute_in_sync_true_iff own (col.settings.take MAX_PERIPHERALS)
  · intro hnil
    have : col.settings.take MAX_PERIPHERALS = [] := by rw [hnil]; rfl
    show (compute_in_sync (own :: col.settings.take MAX_PERIPHERALS)).1 = true
    rw [this]
    rfl
  · intro hfalse
    obtain ⟨l1, e, l2, hsplit, hwarn, hme, hall⟩ :=
      compute_in_sync_false_split own (col.settings.take MAX_PERIPHERALS) hfalse
    refine ⟨l1, e, l2, ?_, hwarn, hme, hall⟩
    rw [show (handle_get_all_activity_settings_sync_finish col own).1.all_settings =
        own :: col.settings.take MAX_PERIPHERALS from rfl, hsplit]
    rfl

/-- C4 witness: one collected divergent entry yields in_sync = false and the
warned entry is that divergent one. -/
theorem C4_witness :
    ∃ l1 e l2,
      (handle_get_all_activity_settings_sync_finish
          { settings := [{ idle_ms := 9, sleep_ms := 2, source := 1 }],
            request_id := 0 }
          { idle_ms := 1, sleep_ms := 2, source := 0 }).1.all_settings =
        { idle_ms := 1, sleep_ms := 2, source := 0 } :: l1 ++ e :: l2 ∧
      (handle_get_all_activity_settings_sync_finish
          { settings := [{ idle_ms := 9, sleep_ms := 2, source := 1 }],
            request_id := 0 }
          { idle_ms := 1, sleep_ms := 2, source := 0 }).2 = some e ∧
      settings_mismatch { idle_ms := 1, sleep_ms := 2, source := 0 } e = true ∧
      ∀ x ∈ l1,
        settings_mismatch { idle_ms := 1, sleep_ms := 2, source := 0 } x = false :=
  (C4_in_sync_verdict
      { settings := [{ idle_ms := 9, sleep_ms := 2, source := 1 }], request_id := 0 }
      { idle_ms := 1, sleep_ms := 2, source := 0 }).2.2 (by decide)

/-- C5: the asynchronous GetAll first emits the outward notification with the
node own current value and the central identity (source 0), then raises the
CollectionRequest, and returns at once with request_sent = true and return
code 0 — its action trace contains no sleep, so it never waits; and the
report listener of this variant forwards every received report as an outward
notification unconditionally (it takes no session state and performs no
correlation-id check or in-sync computation). -/
theorem C5_async_streamed (s : ActivityState) (ev : zmk_activity_settings_report) :
    (handle_get_all_activity_settings s).1.request_sent = true ∧
    (handle_get_all_activity_settings s).2.1 =
      [RelayAction.notify s.idle_ms s.sleep_ms 0,
       RelayAction.raiseRequest { request_id := 0 }] ∧
    (handle_get_all_activity_settings s).2.2 = 0 ∧
    (∀ ms, RelayAction.sleepMs ms ∉ (handle_get_all_activity_settings s).2.1) ∧
    activity_settings_report_listener_notify ev =
      [RelayAction.notify ev.idle_ms ev.sleep_ms ev.source] := by
  refine ⟨rfl, rfl, rfl, ?_, rfl⟩
  intro ms
  simp [handle_get_all_activity_settings, send_activity_settings_notification,
    zmk_activity_get_idle_ms, zmk_activity_get_sleep_ms]

/-- C6 (amended): when the store rejects any field of the requested value, the
response reports failure, no ChangeEvent is raised, the return code is -1, and
every rejected field keeps its previous stored value; a field whose own write
the store accepted is still updated, though. -/
theorem C6_store_rejected (B : StoreBounds)
    (req : zmk_settings_SetActivitySettingsRequest) (s : ActivityState)
    (h : (B.acceptIdle req.idle_ms && B.acceptSleep req.sleep_ms) = false) :
    (handle_set_activity_settings B req s).1.success = false ∧
    (handle_set_activity_settings B req s).2.2.1 = [] ∧
    (handle_set_activity_settings B req s).2.2.2 = -1 ∧
    (B.acceptIdle req.idle_ms = false →
      (handle_set_activity_settings B req s).2.1.idle_ms = s.idle_ms) ∧
    (B.acceptSleep req.sleep_ms = false →
      (handle_set_activity_settings B req s).2.1.sleep_ms = s.sleep_ms) := by
  unfold handle_set_activity_settings zmk_activity_set_idle_ms
    zmk_activity_set_sleep_ms
  cases hI : B.acceptIdle req.idle_ms <;> cases hS : B.acceptSleep req.sleep_ms <;>
    simp_all

/-- C6 witness: with the idle bound at 4000 ms, a request for idle 5000 fails
and raises nothing. -/
theorem C6_witness :
    (handle_set_activity_settings idle_cap_4000
        { idle_ms := 5000, sleep_ms := 60000 }
        { idle_ms := 1000, sleep_ms := 2000 }).2.2.1 = [] :=
  (C6_store_rejected idle_cap_4000
      { idle_ms := 5000, sleep_ms := 60000 }
      { idle_ms := 1000, sleep_ms := 2000 } (by decide)).2.1

/-- C6 counterexample: the claim says a rejected SetAndPropagate leaves the
stored settings unchanged. With a store that rejects idle 5000 but accepts
sleep 60000, the write fails (success = false) yet the stored sleep_ms has
changed from 2000 to 60000: the accepted field is written even though the
overall write failed. -/
theorem C6_counterexample :
    (handle_set_activity_settings idle_cap_4000
        { idle_ms := 5000, sleep_ms := 60000 }
        { idle_ms := 1000, sleep_ms := 2000 }).1.success = false ∧
    (handle_set_activity_settings idle_cap_4000
        { idle_ms := 5000, sleep_ms := 60000 }
        { idle_ms := 1000, sleep_ms := 2000 }).2.1 =
      { idle_ms := 1000, sleep_ms := 60000 } := by
  constructor <;> decide

/-- C7: a follower answers a CollectionRequest by raising exactly one report
whose value fields are its current stored idle_ms and sleep_ms, whose source is
the self-origin marker (the relay stamps the real identity), and whose
request_id echoes the received one; and the listener in the event
implementation file behaves identically, so the response is the same under
both collection strategies. -/
theorem C7_request_listener (s : ActivityState) (ev : zmk_activity_settings_request) :
    activity_settings_request_listener s ev =
      [RelayAction.raiseReport
        { idle_ms := s.idle_ms, sleep_ms := s.sleep_ms,
          source := ZMK_RELAY_EVENT_SOURCE_SELF, request_id := ev.request_id }] ∧
    activity_settings_request_listener_relay s ev =
      activity_settings_request_listener s ev := by
  constructor <;> rfl

/-- C8: an accepted SetAndPropagate followed immediately by GetLocal reads back
exactly the requested value; the read depends only on the returned store state,
not on the raised propagation events, so it is independent of any later
propagation outcome. -/
theorem C8_write_then_read (B : StoreBounds)
    (req : zmk_settings_SetActivitySettingsRequest) (s : ActivityState)
    (h : (B.acceptIdle req.idle_ms && B.acceptSleep req.sleep_ms) = true) :
    handle_get_activity_settings (handle_set_activity_settings B req s).2.1 =
      { idle_ms := req.idle_ms, sleep_ms := req.sleep_ms } := by
  rw [Bool.and_eq_true] at h
  unfold handle_get_activity_settings zmk_activity_get_idle_ms
    zmk_activity_get_sleep_ms handle_set_activity_settings
    zmk_activity_set_idle_ms zmk_activity_set_sleep_ms
  simp [h.1, h.2]

/-- C8 witness: a concrete accepted write reads back as written. -/
theorem C8_witness :
    handle_get_activity_settings
      (handle_set_activity_settings allAccept
          { idle_ms := 5000, sleep_ms := 60000 }
          { idle_ms := 1, sleep_ms := 2 }).2.1 =
      { idle_ms := 5000, sleep_ms := 60000 } :=
  C8_write_then_read allAccept { idle_ms := 5000, sleep_ms := 60000 }
    { idle_ms := 1, sleep_ms := 2 } (by decide)

/-- C9: a payload that fails to decode yields the error-branch response, leaves
the store untouched and makes the handler return normally (true); a decoded
request of an unsupported kind likewise yields the error-branch response and a
normal return. -/
theorem C9_error_responses (B : StoreBounds) (s : ActivityState) (tag : Nat) :
    ((settings_rpc_handle_request B none s).1.isError = true ∧
     (settings_rpc_handle_request B none s).2.2.2 = true ∧
     (settings_rpc_handle_request B none s).2.1 = s) ∧
    ((settings_rpc_handle_request B
        (some (zmk_settings_Request.unsupported tag)) s).1.isError = true ∧
     (settings_rpc_handle_request B
        (some (zmk_settings_Request.unsupported tag)) s).2.2.2 = true) := by
  exact ⟨⟨rfl, rfl, rfl⟩, rfl, rfl⟩

/-- C10: the bounded-synchronous report listener appends only while the
collection holds strictly fewer than MAX_PERIPHERALS = 8 entries, so the entry
count never exceeds 8 (also across any sequence of delivered reports starting
from a fresh session), a report arriving when the collection is full leaves the
state entirely unchanged, and the GetAll response holds at most 9 entries (the
central one plus at most 8 peripherals). The list model makes every access an
in-bounds one by construction: entries exist only where the count reaches. -/
theorem C10_collection_bounded (col : settings_collection) (s : ActivityState)
    (ev : zmk_activity_settings_report) (own : zmk_settings_ActivitySettings)
    (reports : List zmk_activity_settings_report)
    (h : col.settings.length ≤ MAX_PERIPHERALS) :
    (activity_settings_report_listener col ev).settings.length ≤ MAX_PERIPHERALS ∧
    (col.settings.length = MAX_PERIPHERALS →
      activity_settings_report_listener col ev = col) ∧
    ((reports.foldl activity_settings_report_listener
        (handle_get_all_activity_settings_sync_begin col s).1).settings.length
      ≤ MAX_PERIPHERALS) ∧
    (handle_get_all_activity_settings_sync_finish col own).1.all_settings.length
      ≤ MAX_PERIPHERALS + 1 := by
  refine ⟨report_listener_length_le col ev h, ?_,
    foldl_report_listener_length_le reports _
      (by simp [handle_get_all_activity_settings_sync_begin]), ?_⟩
  · intro hfull
    unfold activity_settings_report_listener
    by_cases h1 : ev.request_id ≠ col.request_id
    · simp [h1]
    · simp [h1, hfull]
  · show (own :: col.settings.take MAX_PERIPHERALS).length ≤ MAX_PERIPHERALS + 1
    simp [List.length_take]

/-- C10 witness: from an empty collection a report keeps the count within 8. -/
theorem C10_witness :
    (activity_settings_report_listener { settings := [], request_id := 0 }
        { idle_ms := 3, sleep_ms := 4, source := 1, request_id := 0 }).settings.length
      ≤ MAX_PERIPHERALS :=
  (C10_collection_bounded { settings := [], request_id := 0 }
      { idle_ms := 1, sleep_ms := 2 }
      { idle_ms := 3, sleep_ms := 4, source := 1, request_id := 0 }
      { idle_ms := 1, sleep_ms := 2, source := 0 } [] (by decide)).1
